import Mathlib

/-!
Verification of the equipment-tracking dashboard core
(`src/equipment_tracking_dash.py`).

The embedding models the data pipeline of the dashboard:
`load_data` (schema normalization + derivation), `calculate_kpis`
(KPI aggregation and alert counting), the sidebar filter block of
`main` (filter engine), and the vendor rollup of `main`
(`vendor_summary = df.groupby('Vendor').agg(...)`).

Modelling conventions:
* Numeric cell values are rationals (`ℚ`); the Python source uses
  floats, and every property checked here is an exact arithmetic
  identity that holds in both readings.
* Timestamps (`datetime` values) are integers counting seconds; a
  whole day is 86400 seconds, and `timedelta.days` is floor division
  by 86400 (`Int.fdiv`).
* A raw numeric cell is either a value that pandas parses as a number
  (`Cell.num`), non-numeric text (`Cell.text`), or a blank/NaN cell
  (`Cell.empty`); similarly for raw date cells.
* A pandas column that is absent from the uploaded file is modelled by
  a presence flag on the table (`RawTable.has…`); when the flag is
  false the per-row cell values of that column are ignored.
* `pandas` semantics used by the source and mirrored here:
  `pd.to_datetime(col, errors='coerce')` maps unparsable cells to NaT
  (here `none`); `pd.to_numeric(col, errors='coerce')` maps
  non-numeric cells to NaN (here `none`); comparisons with NaN/NaT
  (`col < now`, `col > 7`, `col == v`) are `False`; subtracting a
  column that contains non-numeric text (object dtype) raises a
  `TypeError`, which aborts `load_data` (the caller catches it at the
  top level and shows an error: no data is produced).
-/

namespace EquipTrack

/-- A raw numeric cell as read from the uploaded table. -/
inductive Cell where
  | num (q : ℚ)
  | text (s : String)
  | empty
deriving DecidableEq

/-- A raw date cell as read from the uploaded table. -/
inductive DateCell where
  | date (t : ℤ)
  | text (s : String)
  | empty
deriving DecidableEq

/-- `pd.to_datetime(col, errors='coerce')` on one cell: parsable dates
survive, everything else becomes NaT (`none`). -/
def toDatetime : DateCell → Option ℤ
  | .date t => some t
  | .text _ => none
  | .empty => none

/-- `pd.to_numeric(col, errors='coerce')` on one cell: numeric values
survive, everything else becomes NaN (`none`). -/
def toNumeric : Cell → Option ℚ
  | .num q => some q
  | .text _ => none
  | .empty => none

/-- Whether a raw cell holds non-numeric text (which makes the pandas
column object-dtype, so arithmetic on the column raises). -/
def Cell.isTextCell : Cell → Bool
  | .text _ => true
  | _ => false

/-- One raw row of the uploaded table, restricted to the columns the
core logic reads.  Categorical/text columns are `Option String`
(`none` = NaN). -/
structure RawRow where
  equipmentDescription : Option String := none
  vendor : Option String := none
  currentStatus : Option String := none
  category : Option String := none
  paymentType : Option String := none
  billingBasis : Option String := none
  mobilizationDate : DateCell := .empty
  nextInspectionDue : DateCell := .empty
  plannedDuration : Cell := .empty
  unitRate : Cell := .empty
  quantity : Cell := .empty
deriving DecidableEq

/-- The uploaded table: per-column presence flags (`'col' in
df.columns` in the source) plus the rows. -/
structure RawTable where
  hasMobilizationDate : Bool := true
  hasNextInspectionDue : Bool := true
  hasPlannedDuration : Bool := true
  hasUnitRate : Bool := true
  hasQuantity : Bool := true
  hasBillingBasis : Bool := true
  rows : List RawRow := []
deriving DecidableEq

/-- A normalized + derived record, as produced by `load_data`.
A column that was absent from the input is represented by `none`
(resp. cost `0`) in every record; the source's `'col' in df.columns`
guards yield exactly the same downstream numbers on that
representation. -/
structure Record where
  equipmentDescription : Option String := none
  vendor : Option String := none
  currentStatus : Option String := none
  category : Option String := none
  paymentType : Option String := none
  billingBasis : Option String := none
  mobilizationDate : Option ℤ := none
  nextInspectionDue : Option ℤ := none
  plannedDuration : Cell := .empty
  daysOnsite : Option ℤ := none
  durationVariance : Option ℚ := none
  unitRate : Option ℚ := none
  quantity : Option ℚ := none
  estimatedTotalCost : ℚ := 0
deriving DecidableEq

/-- `timedelta.days` of `now - m`: whole days, floored. -/
def wholeDaysSince (now m : ℤ) : ℤ := Int.fdiv (now - m) 86400

/-- The body of the `Estimated Total Cost` loop of `load_data`
(lines 186–196): missing `Days Onsite` / `Unit Rate` default to 0,
a null `Billing Basis` leaves the initial 0, recognized bases pick
the daily/weekly/monthly formula, and any other basis leaves the
initial 0. -/
def estimatedCost (dOnsite : Option ℤ) (rate : Option ℚ) (basis : Option String) : ℚ :=
  let days : ℚ := match dOnsite with | some d => (d : ℚ) | none => 0
  let r : ℚ := match rate with | some q => q | none => 0
  match basis with
  | none => 0
  | some b =>
    if b = "Daily" then days * r
    else if b = "Weekly" then days / 7 * r
    else if b = "Monthly" then days / 30 * r
    else 0

/-- Per-row normalization + derivation of `load_data` (lines 161–197),
given the table's column-presence flags. -/
def deriveRow (now : ℤ) (t : RawTable) (r : RawRow) : Record :=
  let mob : Option ℤ := if t.hasMobilizationDate then toDatetime r.mobilizationDate else none
  let nid : Option ℤ := if t.hasNextInspectionDue then toDatetime r.nextInspectionDue else none
  let dOnsite : Option ℤ := mob.map (fun m => max 0 (wholeDaysSince now m))
  let variance : Option ℚ :=
    if t.hasPlannedDuration && t.hasMobilizationDate then
      match dOnsite, toNumeric r.plannedDuration with
      | some d, some p => some ((d : ℚ) - p)
      | _, _ => none
    else none
  let rate : Option ℚ := if t.hasUnitRate then toNumeric r.unitRate else none
  let qty : Option ℚ := if t.hasQuantity then toNumeric r.quantity else none
  let basis : Option String := if t.hasBillingBasis then r.billingBasis else none
  let cost : ℚ :=
    if t.hasUnitRate && t.hasMobilizationDate && t.hasBillingBasis then
      estimatedCost dOnsite rate basis
    else 0
  { equipmentDescription := r.equipmentDescription
    vendor := r.vendor
    currentStatus := r.currentStatus
    category := r.category
    paymentType := r.paymentType
    billingBasis := basis
    mobilizationDate := mob
    nextInspectionDue := nid
    plannedDuration := if t.hasPlannedDuration then r.plannedDuration else .empty
    daysOnsite := dOnsite
    durationVariance := variance
    unitRate := rate
    quantity := qty
    estimatedTotalCost := cost }

/-- `load_data` (lines 154–198).  The `Duration Variance` line
(`df['Days Onsite'] - df['Planned Duration (Days)']`, line 175) runs
only when both columns exist; `Planned Duration (Days)` is *not*
numerically coerced anywhere in the source, so if that column contains
non-numeric text it has object dtype and the subtraction raises a
`TypeError`, aborting the load.  Otherwise every row is normalized and
derived independently. -/
def loadData (now : ℤ) (t : RawTable) : Except String (List Record) :=
  if t.hasPlannedDuration && t.hasMobilizationDate
      && t.rows.any (fun r => r.plannedDuration.isTextCell) then
    .error "TypeError: unsupported operand type(s) for -"
  else
    .ok (t.rows.map (deriveRow now t))

/-! ### KPI Aggregator (`calculate_kpis`, lines 200–230) -/

/-- Lowercase a character list (`case=False` in `str.contains`). -/
def lowerChars (cs : List Char) : List Char := cs.map Char.toLower

/-- Whether `pat` occurs as a contiguous substring of `hay`
(both as character lists). -/
def containsSub (pat : List Char) : List Char → Bool
  | [] => pat.isEmpty
  | c :: rest => pat.isPrefixOf (c :: rest) || containsSub pat rest

/-- `Series.str.contains(pat, case=False, na=False)` on one cell:
case-insensitive substring test, NaN counts as no match. -/
def statusMatches (pat : String) (r : Record) : Bool :=
  match r.currentStatus with
  | some s => containsSub (lowerChars pat.data) (lowerChars s.data)
  | none => false

/-- The KPI snapshot dictionary returned by `calculate_kpis`. -/
structure Kpis where
  total : ℕ
  active : ℕ
  idle : ℕ
  maintenance : ℕ
  totalCost : ℚ
  alerts : ℕ
deriving DecidableEq

/-- One record's overdue-inspection test (`Next Inspection Due <
datetime.now()`; NaT compares `False`). -/
def overdueFlag (now : ℤ) (r : Record) : Bool :=
  match r.nextInspectionDue with
  | some d => decide (d < now)
  | none => false

/-- One record's duration-overrun test (`Duration Variance > 7`;
NaN compares `False`). -/
def overDurationFlag (r : Record) : Bool :=
  match r.durationVariance with
  | some v => decide (7 < v)
  | none => false

/-- `calculate_kpis` (lines 200–230).  Status buckets are independent
case-insensitive substring matches; total cost is a plain sum; the
alert count is the sum of the two rule-match counts.  (When a column
is absent the source takes the `else` branch giving 0; records coming
from `load_data` then carry `none`/cost `0` in that field, which gives
the same counts.) -/
def calculateKpis (now : ℤ) (rs : List Record) : Kpis :=
  { total := rs.length
    active := (rs.filter (statusMatches "Active")).length
    idle := (rs.filter (statusMatches "Idle")).length
    maintenance := (rs.filter (statusMatches "Maintenance")).length
    totalCost := (rs.map Record.estimatedTotalCost).sum
    alerts := (rs.filter (overdueFlag now)).length
            + (rs.filter overDurationFlag).length }

/-! ### Filter Engine (`main`, lines 490–499) -/

/-- The four sidebar selections; the literal string "All" is the
unconstrained sentinel. -/
structure Criteria where
  vendor : String := "All"
  currentStatus : String := "All"
  category : String := "All"
  paymentType : String := "All"
deriving DecidableEq

/-- The `# Apply filters` block of `main` (lines 490–499): four
sequential equality filters, each skipped when its selection is
"All".  A missing (NaN) value never equals a selection. -/
def applyFilters (c : Criteria) (rs : List Record) : List Record :=
  let r1 := if c.vendor = "All" then rs
            else rs.filter (fun r => r.vendor == some c.vendor)
  let r2 := if c.currentStatus = "All" then r1
            else r1.filter (fun r => r.currentStatus == some c.currentStatus)
  let r3 := if c.category = "All" then r2
            else r2.filter (fun r => r.category == some c.category)
  if c.paymentType = "All" then r3
  else r3.filter (fun r => r.paymentType == some c.paymentType)

/-- One record satisfies every non-"All" criterion, each tested by
exact equality on the record's value in that dimension. -/
def matchesCriteria (c : Criteria) (r : Record) : Bool :=
  (decide (c.vendor = "All") || r.vendor == some c.vendor)
  && (decide (c.currentStatus = "All") || r.currentStatus == some c.currentStatus)
  && (decide (c.category = "All") || r.category == some c.category)
  && (decide (c.paymentType = "All") || r.paymentType == some c.paymentType)

/-! ### Rollup Builder (`main`, lines 629–636) -/

/-- Byte-order comparison of characters. -/
def charLt (a b : Char) : Bool := decide (a.val.toNat < b.val.toNat)

/-- Lexicographic strict order on character lists. -/
def charListLt : List Char → List Char → Bool
  | [], [] => false
  | [], _ :: _ => true
  | _ :: _, [] => false
  | a :: as, b :: bs => charLt a b || ((a == b) && charListLt as bs)

/-- Lexicographic `≤` on strings (the order `groupby` sorts keys in). -/
def strLe (a b : String) : Bool := !(charListLt b.data a.data)

/-- Insert a string into an already sorted list. -/
def insertSorted (v : String) : List String → List String
  | [] => [v]
  | w :: ws => if strLe v w then v :: w :: ws else w :: insertSorted v ws

/-- Insertion sort by `strLe` (models `groupby`'s ascending key
order). -/
def sortStrings : List String → List String
  | [] => []
  | v :: vs => insertSorted v (sortStrings vs)

/-- The group keys of `df.groupby('Vendor')`: distinct non-null vendor
values, in ascending order.  NaN vendors are dropped (`groupby`'s
default `dropna=True`). -/
def vendorKeys (rs : List Record) : List String :=
  sortStrings (rs.filterMap Record.vendor).dedup

/-- The member rows of one vendor group. -/
def vendorGroup (rs : List Record) (v : String) : List Record :=
  rs.filter (fun r => r.vendor == some v)

/-- One row of `vendor_summary` (lines 629–635): per-vendor count of
non-null `Equipment Description`, summed cost, and mean `Days Onsite`
(NaN-skipping mean; NaN (`none`) when the group has no non-null
value). -/
structure RollupRow where
  vendor : String
  equipmentCount : ℕ
  totalCost : ℚ
  avgDaysOnsite : Option ℚ
deriving DecidableEq

/-- `vendor_summary = filtered_df.groupby('Vendor').agg({...})`
(lines 629–635), one row per group key in ascending key order (the
descending-by-cost presentation sort of line 636 is applied
afterwards and permutes these rows). -/
def vendorSummary (rs : List Record) : List RollupRow :=
  (vendorKeys rs).map (fun v =>
    let g := vendorGroup rs v
    let ds := g.filterMap Record.daysOnsite
    { vendor := v
      equipmentCount := (g.filter (fun r => r.equipmentDescription.isSome)).length
      totalCost := (g.map Record.estimatedTotalCost).sum
      avgDaysOnsite :=
        if ds.isEmpty then none
        else some ((ds.map (fun d => (d : ℚ))).sum / (ds.length : ℚ)) })

/-- Sum of the per-group summed costs across all rollup groups. -/
def rollupCostTotal (rs : List Record) : ℚ :=
  ((vendorSummary rs).map RollupRow.totalCost).sum

/-! ### Claim-side (spec-worded) definitions -/

/-- The cost formula as the spec words it: `Days Onsite × Unit Rate`
(Daily), `(Days Onsite/7) × Unit Rate` (Weekly), `(Days Onsite/30) ×
Unit Rate` (Monthly), and 0 when `Billing Basis` is missing or
unrecognized or when `Unit Rate`/`Days Onsite` is missing. -/
def specCost (dOnsite : Option ℤ) (rate : Option ℚ) (basis : Option String) : ℚ :=
  match dOnsite, rate, basis with
  | some d, some r, some b =>
    if b = "Daily" then (d : ℚ) * r
    else if b = "Weekly" then ((d : ℚ) / 7) * r
    else if b = "Monthly" then ((d : ℚ) / 30) * r
    else 0
  | _, _, _ => 0

/-- The source's cost loop agrees with the spec's formula everywhere:
the source defaults a missing `Days Onsite`/`Unit Rate` to 0, and each
billing formula is then 0 anyway. -/
theorem estimatedCost_eq_specCost (dOnsite : Option ℤ) (rate : Option ℚ)
    (basis : Option String) :
    estimatedCost dOnsite rate basis = specCost dOnsite rate basis := by
  cases dOnsite <;> cases rate <;> cases basis <;>
    simp only [estimatedCost, specCost] <;> split_ifs <;> norm_num

/-! ### Claims -/

/-- **C1.** For every record of a normalized dataset whose `Unit Rate`,
`Days Onsite` and `Billing Basis` columns are present, `Estimated
Total Cost` equals `Days Onsite × Unit Rate` for basis "Daily",
`(Days Onsite/7) × Unit Rate` for "Weekly", `(Days Onsite/30) × Unit
Rate` for "Monthly", and 0 when the basis is missing/unrecognized or
`Unit Rate`/`Days Onsite` is missing; Daily 100 × 10 days = 1000,
Weekly 700 at 14 days = 1400, Monthly 3000 at 30 days = 3000. -/
theorem c1_estimated_total_cost (now : ℤ) (t : RawTable) (out : List Record)
    (r : Record) (hU : t.hasUnitRate = true) (hM : t.hasMobilizationDate = true)
    (hB : t.hasBillingBasis = true)
    (hok : loadData now t = Except.ok out) (hr : r ∈ out) :
    r.estimatedTotalCost = specCost r.daysOnsite r.unitRate r.billingBasis
    ∧ estimatedCost (some 10) (some 100) (some "Daily") = 1000
    ∧ estimatedCost (some 14) (some 700) (some "Weekly") = 1400
    ∧ estimatedCost (some 30) (some 3000) (some "Monthly") = 3000 := by
  refine ⟨?_, by norm_num [estimatedCost], ?_, ?_⟩
  · have hout : out = t.rows.map (deriveRow now t) := by
      unfold loadData at hok
      split at hok
      · simp at hok
      · injection hok with h
        exact h.symm
    subst hout
    rcases List.mem_map.mp hr with ⟨raw, _, rfl⟩
    simp only [deriveRow, hU, hM, hB, Bool.and_self, if_true]
    exact estimatedCost_eq_specCost _ _ _
  · simp +decide [estimatedCost]
    norm_num
  · simp +decide [estimatedCost]

/-- Witness table for C1: the three columns present, one row with
every cell blank (cost 0 on both sides). -/
def c1Table : RawTable := { rows := [{}] }

theorem c1_estimated_total_cost_witness :
    (Record.mk none none none none none none none none .empty none none none none 0).estimatedTotalCost
        = specCost none none none
    ∧ estimatedCost (some 10) (some 100) (some "Daily") = 1000
    ∧ estimatedCost (some 14) (some 700) (some "Weekly") = 1400
    ∧ estimatedCost (some 30) (some 3000) (some "Monthly") = 3000 :=
  c1_estimated_total_cost 0 c1Table
    [Record.mk none none none none none none none none .empty none none none none 0]
    (Record.mk none none none none none none none none .empty none none none none 0)
    rfl rfl rfl rfl (by simp)

/-- **C5.** For every normalized record, `Days Onsite` is ≥ 0 (a
future mobilization date is clamped to 0), and `Days Onsite` is
missing if and only if `Mobilization Date` is missing. -/
theorem c5_days_onsite_clamped (now : ℤ) (t : RawTable) (out : List Record)
    (r : Record) (hok : loadData now t = Except.ok out) (hr : r ∈ out) :
    (r.daysOnsite.isSome ↔ r.mobilizationDate.isSome)
    ∧ ∀ d, r.daysOnsite = some d → 0 ≤ d := by
  have hout : out = t.rows.map (deriveRow now t) := by
    unfold loadData at hok
    split at hok
    · simp at hok
    · injection hok with h
      exact h.symm
  subst hout
  rcases List.mem_map.mp hr with ⟨raw, _, rfl⟩
  constructor
  · simp [deriveRow]
  · intro d hd
    simp only [deriveRow, Option.map_eq_some'] at hd
    obtain ⟨m, _, hm⟩ := hd
    exact hm ▸ le_sup_left

/-- Witness table for C5: one row with a mobilization date equal to
the evaluation instant (`Days Onsite` = 0) alongside the empty-cell
behaviour. -/
def c5Table : RawTable :=
  { hasPlannedDuration := false, hasUnitRate := false, hasQuantity := false,
    hasBillingBasis := false,
    rows := [{ mobilizationDate := .date 0 }] }

theorem c5_days_onsite_clamped_witness :
    (((deriveRow 0 c5Table { mobilizationDate := .date 0 }).daysOnsite).isSome
        ↔ ((deriveRow 0 c5Table { mobilizationDate := .date 0 }).mobilizationDate).isSome)
    ∧ ∀ d, (deriveRow 0 c5Table { mobilizationDate := .date 0 }).daysOnsite = some d → 0 ≤ d :=
  c5_days_onsite_clamped 0 c5Table
    [deriveRow 0 c5Table { mobilizationDate := .date 0 }]
    (deriveRow 0 c5Table { mobilizationDate := .date 0 })
    rfl (by simp)

/-- **C6.** Applying the Filter Engine with every dimension set to the
sentinel "All" returns the record set unchanged. -/
theorem c6_all_filters_identity (rs : List Record) :
    applyFilters { vendor := "All", currentStatus := "All", category := "All",
                   paymentType := "All" } rs = rs := rfl

/-- **C8.** The KPI Aggregator on an empty record set yields total 0,
status counts 0, total cost 0 and alert count 0 (it is a total
function, so no error is possible). -/
theorem c8_empty_record_set (now : ℤ) (c : Criteria) :
    calculateKpis now []
        = { total := 0, active := 0, idle := 0, maintenance := 0,
            totalCost := 0, alerts := 0 }
    ∧ calculateKpis now (applyFilters c [])
        = { total := 0, active := 0, idle := 0, maintenance := 0,
            totalCost := 0, alerts := 0 } := by
  constructor
  · rfl
  · have h : applyFilters c [] = [] := by
      simp only [applyFilters]
      repeat' split <;> simp
    rw [h]
    rfl

/-- Decidability of "the optional field is present and satisfies
`p`". -/
instance optionExistsDecidable {α : Type} (p : α → Prop) [DecidablePred p]
    (o : Option α) : Decidable (∃ x, o = some x ∧ p x) :=
  match o with
  | none => isFalse (by simp)
  | some a => decidable_of_iff (p a) (by simp)

/-- **C3.** The alert count equals the number of records whose
`Next Inspection Due` is present and strictly before the evaluation
timestamp, plus the number of records whose `Duration Variance` is
present and strictly greater than 7; a record satisfying both rules
contributes 2 (e.g. inspection due yesterday and variance 10 gives
alert count 2 on a one-record set). -/
theorem c3_alert_count (now : ℤ) (rs : List Record) :
    (calculateKpis now rs).alerts
        = rs.countP (fun r : Record => decide (∃ d, r.nextInspectionDue = some d ∧ d < now))
          + rs.countP (fun r : Record => decide (∃ v, r.durationVariance = some v ∧ 7 < v))
    ∧ (calculateKpis now
        [{ nextInspectionDue := some (now - 86400), durationVariance := some 10 }]).alerts
        = 2 := by
  constructor
  · simp only [calculateKpis, ← List.countP_eq_length_filter]
    congr 1
    · apply List.countP_congr
      intro r _
      cases h : r.nextInspectionDue <;> simp [overdueFlag, h]
    · apply List.countP_congr
      intro r _
      cases h : r.durationVariance <;> simp [overDurationFlag, h]
  · have h1 : now - 86400 < now := by omega
    have h2 : (7 : ℚ) < 10 := by norm_num
    simp [calculateKpis, overdueFlag, overDurationFlag, h1, h2]

/-- **C10.** Status buckets are counted by independent
case-insensitive substring tests, so one record whose status text
contains two of the substrings increments both buckets, and
`active + idle + maintenance` can exceed `total`: the one-record set
with status "Active / Idle" has total 1 but bucket sum 2. -/
theorem c10_status_buckets_overlap (now : ℤ) (rs : List Record) (r : Record)
    (hr : r ∈ rs) (hA : statusMatches "Active" r = true)
    (hI : statusMatches "Idle" r = true) :
    (1 ≤ (calculateKpis now rs).active ∧ 1 ≤ (calculateKpis now rs).idle)
    ∧ (calculateKpis 0 [{ currentStatus := some "Active / Idle" }]).total
        < (calculateKpis 0 [{ currentStatus := some "Active / Idle" }]).active
          + (calculateKpis 0 [{ currentStatus := some "Active / Idle" }]).idle
          + (calculateKpis 0 [{ currentStatus := some "Active / Idle" }]).maintenance := by
  refine ⟨⟨?_, ?_⟩, by decide⟩
  · have : r ∈ rs.filter (statusMatches "Active") := List.mem_filter.mpr ⟨hr, hA⟩
    simpa [calculateKpis, Nat.succ_le_iff] using
      List.length_pos.mpr (List.ne_nil_of_mem this)
  · have : r ∈ rs.filter (statusMatches "Idle") := List.mem_filter.mpr ⟨hr, hI⟩
    simpa [calculateKpis, Nat.succ_le_iff] using
      List.length_pos.mpr (List.ne_nil_of_mem this)

theorem c10_status_buckets_overlap_witness :
    (1 ≤ (calculateKpis 0 [{ currentStatus := some "Active / Idle" }]).active
      ∧ 1 ≤ (calculateKpis 0 [{ currentStatus := some "Active / Idle" }]).idle)
    ∧ (calculateKpis 0 [{ currentStatus := some "Active / Idle" }]).total
        < (calculateKpis 0 [{ currentStatus := some "Active / Idle" }]).active
          + (calculateKpis 0 [{ currentStatus := some "Active / Idle" }]).idle
          + (calculateKpis 0 [{ currentStatus := some "Active / Idle" }]).maintenance :=
  c10_status_buckets_overlap 0 [{ currentStatus := some "Active / Idle" }]
    { currentStatus := some "Active / Idle" } (by simp) (by decide) (by decide)

/-- One sidebar filter step: skipping on the "All" sentinel is the
same as filtering by "sentinel selected, or value equal". -/
theorem filter_step (b : Prop) [Decidable b] (l : List Record) (p : Record → Bool) :
    (if b then l else l.filter p) = l.filter (fun r => decide b || p r) := by
  split
  · simp [decide_eq_true_eq, *]
  · simp only [decide_eq_false ‹¬b›, Bool.false_or]

/-- **C7.** The Filter Engine returns exactly the records satisfying
every non-"All" criterion, each criterion tested by exact equality of
the record's value in that dimension, composed conjunctively. -/
theorem c7_filter_exact_conjunctive (c : Criteria) (rs : List Record) :
    applyFilters c rs = rs.filter (matchesCriteria c) := by
  simp only [applyFilters]
  rw [filter_step (c.paymentType = "All"), filter_step (c.category = "All"),
    filter_step (c.currentStatus = "All"), filter_step (c.vendor = "All"),
    List.filter_filter, List.filter_filter, List.filter_filter]
  apply List.filter_congr
  intro r _
  simp only [matchesCriteria]
  cases decide (c.vendor = "All") || r.vendor == some c.vendor <;>
    cases decide (c.currentStatus = "All") || r.currentStatus == some c.currentStatus <;>
    cases decide (c.category = "All") || r.category == some c.category <;>
    cases decide (c.paymentType = "All") || r.paymentType == some c.paymentType <;>
    rfl

/-- A table whose `Planned Duration (Days)` column holds non-numeric
text while `Mobilization Date` is present: the `Duration Variance`
subtraction of `load_data` (line 175) then operates on an
object-dtype column and raises. -/
def c2Table : RawTable :=
  { hasUnitRate := false, hasQuantity := false, hasBillingBasis := false,
    rows := [{ mobilizationDate := .date 0, plannedDuration := .text "N/A" }] }

/-- **C2 (counterexample).** Contrary to the claim, normalization does
raise on non-numeric text in `Planned Duration (Days)`: the source
never coerces that column (only `Unit Rate` and `Quantity`, lines
178–181), so the `Duration Variance` subtraction fails and the load
aborts instead of completing with a missing marker. -/
theorem c2_counterexample :
    loadData 86400 c2Table = Except.error "TypeError: unsupported operand type(s) for -"
    ∧ ∀ out, loadData 86400 c2Table ≠ Except.ok out := by
  refine ⟨rfl, fun out h => ?_⟩
  rw [show loadData 86400 c2Table
      = Except.error "TypeError: unsupported operand type(s) for -" from rfl] at h
  exact Except.noConfusion h

/-- **C2 (amended).** Coercion of `Unit Rate` and `Quantity` never
raises — non-numeric text in those columns becomes the missing
marker — but `Planned Duration (Days)` is never coerced; the load
completes for the whole dataset provided the `Duration Variance`
subtraction is not reached with non-numeric text, i.e. whenever the
`Planned Duration (Days)` or `Mobilization Date` column is absent or
every `Planned Duration (Days)` cell is numeric-or-blank. -/
theorem c2_amended_no_raise (now : ℤ) (t : RawTable)
    (h : t.hasPlannedDuration = false ∨ t.hasMobilizationDate = false
         ∨ ∀ r ∈ t.rows, r.plannedDuration.isTextCell = false) :
    loadData now t = Except.ok (t.rows.map (deriveRow now t))
    ∧ (∀ s, toNumeric (Cell.text s) = none)
    ∧ ∀ r ∈ t.rows, t.hasUnitRate = true →
        (deriveRow now t r).unitRate = toNumeric r.unitRate := by
  refine ⟨?_, fun _ => rfl, fun r _ hU => by simp [deriveRow, hU]⟩
  unfold loadData
  rcases h with h | h | h
  · simp [h]
  · simp [h]
  · have : t.rows.any (fun r => r.plannedDuration.isTextCell) = false := by
      rw [List.any_eq_false]
      intro r hr
      simp [h r hr]
    simp [this]

/-- Witness table for C2 (amended): both columns present, the planned
duration numeric. -/
def c2OkTable : RawTable :=
  { rows := [{ mobilizationDate := .date 0, plannedDuration := .num 3 }] }

theorem c2_amended_no_raise_witness :
    loadData 0 c2OkTable = Except.ok (c2OkTable.rows.map (deriveRow 0 c2OkTable))
    ∧ (∀ s, toNumeric (Cell.text s) = none)
    ∧ ∀ r ∈ c2OkTable.rows, c2OkTable.hasUnitRate = true →
        (deriveRow 0 c2OkTable r).unitRate = toNumeric r.unitRate :=
  c2_amended_no_raise 0 c2OkTable (Or.inr (Or.inr (by decide)))

theorem insertSorted_perm (v : String) (l : List String) :
    (insertSorted v l).Perm (v :: l) := by
  induction l with
  | nil => exact List.Perm.refl _
  | cons w ws ih =>
    unfold insertSorted
    split
    · exact List.Perm.refl _
    · exact (List.Perm.cons w ih).trans (List.Perm.swap v w ws)

theorem sortStrings_perm (l : List String) : (sortStrings l).Perm l := by
  induction l with
  | nil => exact List.Perm.refl _
  | cons v vs ih => exact (insertSorted_perm v _).trans (List.Perm.cons v ih)

theorem sum_ite_not_mem (v₀ : String) (c : ℚ) (ks : List String) (h : v₀ ∉ ks) :
    (ks.map (fun v => if v₀ = v then c else 0)).sum = 0 := by
  induction ks with
  | nil => simp
  | cons k ks ih =>
    have h1 : ¬ v₀ = k := by
      intro hv
      exact h (by simp [hv])
    have h2 : v₀ ∉ ks := fun hm => h (List.mem_cons_of_mem k hm)
    simp only [List.map_cons, List.sum_cons, if_neg h1, ih h2]
    norm_num

theorem sum_ite_mem (v₀ : String) (c : ℚ) (ks : List String) (hnd : ks.Nodup)
    (h : v₀ ∈ ks) :
    (ks.map (fun v => if v₀ = v then c else 0)).sum = c := by
  induction ks with
  | nil => cases h
  | cons k ks ih =>
    simp only [List.map_cons, List.sum_cons]
    rcases List.mem_cons.mp h with rfl | hm
    · rw [if_pos rfl, sum_ite_not_mem _ _ _ (List.nodup_cons.mp hnd).1]
      norm_num
    · have h1 : ¬ v₀ = k := fun hv => (List.nodup_cons.mp hnd).1 (hv ▸ hm)
      rw [if_neg h1, ih (List.nodup_cons.mp hnd).2 hm]
      norm_num

/-- Partition of the cost sum over any duplicate-free key list that
covers every record's vendor. -/
theorem sum_grouped (rs : List Record) (ks : List String) (hnd : ks.Nodup)
    (hcov : ∀ r ∈ rs, ∃ v, r.vendor = some v ∧ v ∈ ks) :
    (ks.map (fun v =>
        ((rs.filter (fun r => r.vendor == some v)).map Record.estimatedTotalCost).sum)).sum
      = (rs.map Record.estimatedTotalCost).sum := by
  induction rs with
  | nil => simp
  | cons r rest ih =>
    obtain ⟨v₀, hv₀, hkmem⟩ := hcov r (List.mem_cons_self r rest)
    have hrest : ∀ x ∈ rest, ∃ v, x.vendor = some v ∧ v ∈ ks :=
      fun x hx => hcov x (List.mem_cons_of_mem r hx)
    have hsplit : ∀ v : String,
        ((List.filter (fun x => x.vendor == some v) (r :: rest)).map
            Record.estimatedTotalCost).sum
          = (if v₀ = v then r.estimatedTotalCost else 0)
            + ((List.filter (fun x => x.vendor == some v) rest).map
                Record.estimatedTotalCost).sum := by
      intro v
      rw [List.filter_cons]
      by_cases hv : v₀ = v
      · subst hv
        simp [hv₀]
      · have hb : ((r.vendor == some v) : Bool) = false := by
          simp [hv₀, hv]
        simp [hb, hv]
    calc (ks.map (fun v =>
            ((List.filter (fun x => x.vendor == some v) (r :: rest)).map
              Record.estimatedTotalCost).sum)).sum
        = (ks.map (fun v =>
            (if v₀ = v then r.estimatedTotalCost else 0)
              + ((List.filter (fun x => x.vendor == some v) rest).map
                  Record.estimatedTotalCost).sum)).sum := by
          exact congrArg List.sum (List.map_congr_left (fun v _ => hsplit v))
      _ = (ks.map (fun v => if v₀ = v then r.estimatedTotalCost else 0)).sum
            + (ks.map (fun v =>
                ((List.filter (fun x => x.vendor == some v) rest).map
                  Record.estimatedTotalCost).sum)).sum := List.sum_map_add
      _ = r.estimatedTotalCost + (rest.map Record.estimatedTotalCost).sum := by
          rw [sum_ite_mem v₀ _ ks hnd hkmem, ih hrest]
      _ = ((r :: rest).map Record.estimatedTotalCost).sum := by simp

/-- **C4 (counterexample).** The rollup excludes records with a
missing `Vendor` (`groupby` drops NaN keys), so on a record set whose
single record has no vendor and cost 100, the summed rollup cost is 0
while the KPI total cost is 100: the claimed invariant fails. -/
theorem c4_counterexample :
    ¬ (rollupCostTotal [{ vendor := none, estimatedTotalCost := 100 }]
        = (calculateKpis 0 [{ vendor := none, estimatedTotalCost := 100 }]).totalCost) := by
  intro h
  rw [show rollupCostTotal [{ vendor := none, estimatedTotalCost := 100 }] = 0 from rfl] at h
  have h2 : (calculateKpis 0
      [({ vendor := none, estimatedTotalCost := 100 } : Record)]).totalCost = 100 := by
    simp [calculateKpis]
  rw [h2] at h
  norm_num at h

/-- **C4 (amended).** When every record has a (non-missing) `Vendor`,
the sum over all rollup groups of the per-group summed `Estimated
Total Cost` equals the KPI Aggregator's total cost on the same record
set.  (In general the rollup sum equals the total cost of the records
whose `Vendor` is present, because `groupby` drops missing keys.) -/
theorem c4_rollup_total_consistency (now : ℤ) (rs : List Record)
    (h : ∀ r ∈ rs, r.vendor.isSome = true) :
    rollupCostTotal rs = (calculateKpis now rs).totalCost := by
  unfold rollupCostTotal vendorSummary calculateKpis vendorGroup vendorKeys
  simp only [List.map_map]
  show ((sortStrings (rs.filterMap Record.vendor).dedup).map
      (fun v => ((rs.filter (fun r => r.vendor == some v)).map Record.estimatedTotalCost).sum)).sum
    = (rs.map Record.estimatedTotalCost).sum
  have hperm := (sortStrings_perm ((rs.filterMap Record.vendor).dedup)).map
      (fun v => ((rs.filter (fun r => r.vendor == some v)).map Record.estimatedTotalCost).sum)
  rw [hperm.sum_eq]
  apply sum_grouped
  · exact List.nodup_dedup _
  · intro r hr
    obtain ⟨v, hv⟩ := Option.isSome_iff_exists.mp (h r hr)
    exact ⟨v, hv, List.mem_dedup.mpr (List.mem_filterMap.mpr ⟨r, hr, hv⟩)⟩

theorem c4_rollup_total_consistency_witness :
    rollupCostTotal [{ vendor := some "ACME" }]
      = (calculateKpis 0 [{ vendor := some "ACME" }]).totalCost :=
  c4_rollup_total_consistency 0 [{ vendor := some "ACME" }]
    (by intro r hr; rw [List.mem_singleton.mp hr]; rfl)

end EquipTrack
